import Mathlib

/-!
Verification development for the `ai-agents` repository (MCP orchestration
layer, incident-analysis agent, webhook forwarding).

The Python source is shallowly embedded:
* pydantic models become Lean structures (wall-clock fields such as
  `timestamp`, `analysis_timestamp` and `processing_time_seconds`, and the
  randomly generated `insight_id`, carry no information relevant to the
  verified properties and are omitted);
* Python `float` score arithmetic is modelled over `Rat`;
* the SQLite cache table is modelled as an association list from the
  description-hash key to the stored `AnalysisResult` (the JSON
  serialization round-trip of `_add_to_cache` / `_check_cache` is the
  identity on well-formed entries, and connection failures are out of
  scope of the verified claims);
* external effects (the LLM HTTP call, the JSON extraction/validation in
  `_parse_llm_response`, HTTP outcomes of router/forwarding calls, UUID
  generation) are supplied by an explicit environment, so every function
  is a pure function of its inputs and that environment.
-/

/-- Embeds `models.RootCause` (src/agents/incident/models.py). -/
structure RootCause where
  cause : String
  likelihood : String
  explanation : String
deriving Repr, DecidableEq

/-- Embeds `models.RecommendedAction` (src/agents/incident/models.py). -/
structure RecommendedAction where
  action : String
  type : String
  target : Option String := none
  priority : Option Int := none
  estimated_time_minutes : Option Int := none
  required_skills : List String := []
deriving Repr, DecidableEq

/-- Embeds `models.LLMStructuredResponse` (src/agents/incident/models.py).
`estimated_resolution_time_hours` is a Python float, modelled over `Rat`. -/
structure LLMStructuredResponse where
  potential_root_causes : List RootCause := []
  recommended_actions : List RecommendedAction := []
  incident_category : Option String := none
  estimated_resolution_time_hours : Option Rat := none
  similar_known_issues : List String := []
  recommended_documentation : List String := []
  confidence_explanation : Option String := none
deriving Repr, DecidableEq

/-- Embeds `models.ActionableInsight` (src/agents/incident/models.py); the
uuid-generated `insight_id` is omitted. -/
structure ActionableInsight where
  description : String
  target : Option String := none
  type : String
  priority : Option Int := none
  estimated_time_minutes : Option Int := none
  required_skills : List String := []
deriving Repr, DecidableEq

/-- Embeds `models.IncidentReport` (src/agents/incident/models.py); the
`timestamp` field is omitted (it only feeds the prompt text). -/
structure IncidentReport where
  incident_id : String
  description : String
  priority : Option Int := none
  affected_systems : Option (List String) := none
  reporter : Option String := none
deriving Repr, DecidableEq

/-- Embeds `models.AnalysisResult` (src/agents/incident/models.py);
`analysis_timestamp` and `processing_time_seconds` are omitted. -/
structure AnalysisResult where
  incident_id : String
  llm_raw_response : Option String := none
  parsed_response : Option LLMStructuredResponse := none
  confidence_score : Option Rat := none
  actionable_insights : List ActionableInsight := []
  errors : List String := []
  analysis_source : String
deriving Repr, DecidableEq

/-- Python truthiness of an optional string (`None` and `""` are falsy), as
used by `if parsed_data.incident_category:` and similar tests in
`_calculate_confidence` (src/agents/incident/analyzer.py). -/
def truthy_opt_str (s : Option String) : Bool :=
  match s with
  | none => false
  | some t => !t.isEmpty

/-- Embeds the `cause_details_score` accumulation of `_calculate_confidence`
(src/agents/incident/analyzer.py lines 461-472): inside the nonempty branch,
`num_causes > 0` always holds, `any(c.likelihood ...)` and
`any(c.explanation ...)` are Python truthiness on strings. -/
def cause_details_score (d : LLMStructuredResponse) : Rat :=
  if !d.potential_root_causes.isEmpty then
    2 + (if d.potential_root_causes.any (fun c => !c.likelihood.isEmpty) then 4 else 0)
      + (if d.potential_root_causes.any (fun c => !c.explanation.isEmpty) then 4 else 0)
  else 0

/-- Embeds the `action_details_score` accumulation of `_calculate_confidence`
(src/agents/incident/analyzer.py lines 474-489): `has_type` and `has_skills`
are Python truthiness, `has_priority` and `has_time` are `is not None`. -/
def action_details_score (d : LLMStructuredResponse) : Rat :=
  if !d.recommended_actions.isEmpty then
    2 + (if d.recommended_actions.any (fun a => !a.type.isEmpty) then 2 else 0)
      + (if d.recommended_actions.any (fun a => a.priority.isSome) then 2 else 0)
      + (if d.recommended_actions.any (fun a => a.estimated_time_minutes.isSome) then 2 else 0)
      + (if d.recommended_actions.any (fun a => !a.required_skills.isEmpty) then 2 else 0)
  else 0

/-- The raw point total accumulated by `_calculate_confidence`
(src/agents/incident/analyzer.py lines 417-496) for a successfully parsed
response: the sequential `score += ...` additions written as one sum. -/
def confidence_raw_score (d : LLMStructuredResponse) : Rat :=
  (if !d.potential_root_causes.isEmpty then 20 else 0)
  + (if !d.recommended_actions.isEmpty then 20 else 0)
  + (if truthy_opt_str d.incident_category then 10 else 0)
  + (if d.estimated_resolution_time_hours.isSome then 10 else 0)
  + (if !d.similar_known_issues.isEmpty then 5 else 0)
  + (if !d.recommended_documentation.isEmpty then 5 else 0)
  + cause_details_score d
  + action_details_score d
  + (if truthy_opt_str d.confidence_explanation then 10 else 0)

/-- Embeds `_calculate_confidence` (src/agents/incident/analyzer.py lines
400-501). The `raw_response` argument is unused by the source body as well.
`max_score = 100.0`; the final normalization is
`max(0.0, min(1.0, score / max_score))`. -/
def calculate_confidence (parsed_data : Option LLMStructuredResponse)
    (_raw_response : String) : Rat :=
  match parsed_data with
  | none => 1 / 10
  | some d => max 0 (min 1 (confidence_raw_score d / 100))

/-- Embeds `_extract_insights` (src/agents/incident/analyzer.py lines
503-540): one `ActionableInsight` per `RecommendedAction`, copying the
fields (`description` comes from `action.action`).  The model construction
is total, so the per-item try/except never skips an action. -/
def extract_insights (parsed_data : LLMStructuredResponse)
    (_incident_id : String) : List ActionableInsight :=
  if parsed_data.recommended_actions.isEmpty then []
  else
    parsed_data.recommended_actions.map (fun action =>
      { description := action.action
        type := action.type
        target := action.target
        priority := action.priority
        estimated_time_minutes := action.estimated_time_minutes
        required_skills := action.required_skills })

/-! ### Cache-key normalization (`_get_incident_summary`)

Python's `description.lower().split()` is embedded character-wise:
`Char.toLower` stands for `str.lower` and `Char.isWhitespace` for the
whitespace test of `str.split()` (both restricted to the character classes
Lean's `Char` API handles; the structure of the normalization is
unaffected).  The MD5 digest of the re-joined words is an arbitrary
function `digest` of the normalized character sequence: the cache-key
claim is an invariance property that holds for every digest function. -/

/-- Accumulator-based embedding of Python `str.split()` (split on whitespace
runs, dropping empty words): `cur` holds the current word reversed. -/
def split_ws_aux : List Char → List Char → List (List Char)
  | cur, [] => if cur.isEmpty then [] else [cur.reverse]
  | cur, c :: cs =>
    if c.isWhitespace then
      if cur.isEmpty then split_ws_aux [] cs
      else cur.reverse :: split_ws_aux [] cs
    else split_ws_aux (c :: cur) cs

/-- Python `str.split()` on a character list. -/
def py_split (l : List Char) : List (List Char) :=
  split_ws_aux [] l

/-- Python `str.lower()` on a character list. -/
def py_lower (l : List Char) : List Char :=
  l.map Char.toLower

/-- The normalization `' '.join(description.lower().split())` of
`_get_incident_summary` (src/agents/incident/analyzer.py line 155). -/
def py_normalize (description : List Char) : List Char :=
  List.intercalate [' '] (py_split (py_lower description))

/-- Embeds `_get_incident_summary` (src/agents/incident/analyzer.py lines
145-156): the hex MD5 digest of the normalized description, with the digest
function abstracted (the verified property is digest-independent). -/
def get_incident_summary (digest : List Char → String) (description : String) : String :=
  digest (py_normalize description.data)

/-- Normalization as worded by the specification claim: lowercase the
description and collapse each run of whitespace into a single space.  The
Boolean flag records whether the previous character belonged to a
whitespace run.  This is the comparison definition for the cache-key
invariance claim, not a function of the source. -/
def collapse_ws : Bool → List Char → List Char
  | _, [] => []
  | prevWs, c :: cs =>
    if c.isWhitespace then
      if prevWs then collapse_ws true cs
      else ' ' :: collapse_ws true cs
    else c :: collapse_ws false cs

/-- Spec-side normalized form of a description: lowercasing plus
whitespace-run collapsing. -/
def spec_normalize (description : List Char) : List Char :=
  collapse_ws false (py_lower description)

/-! ### SQLite cache table (`incident_analysis_cache`)

The table has primary key `incident_summary`; it is modelled as an
association list from that key to the stored `AnalysisResult`.  `SELECT ...
WHERE incident_summary = ?` is a key lookup and `INSERT OR REPLACE` is a
key update (replace if present, append otherwise). -/

/-- The cache table content. -/
abbrev Cache : Type := List (String × AnalysisResult)

/-- Row lookup by primary key (`_check_cache`'s SELECT). -/
def cache_lookup (cache : Cache) (key : String) : Option AnalysisResult :=
  (List.find? (fun e => e.1 == key) cache).map (fun e => e.2)

/-- `INSERT OR REPLACE` on the primary key (`_add_to_cache`'s statement):
replaces the row with the same key, appends a new row otherwise. -/
def cache_insert_replace (cache : Cache) (key : String) (result : AnalysisResult) : Cache :=
  if List.any cache (fun e => e.1 == key) then
    List.map (fun e => if e.1 == key then (key, result) else e) cache
  else cache ++ [(key, result)]

/-- Environment of one `analyze_incident` run: the cache table content, the
digest function, and the outcomes of the external steps (prompt
formatting, the LLM HTTP call, and the JSON extraction/validation of
`_parse_llm_response`, which is abstracted to its result: `some` validated
response, or `none` with the error message it appends). -/
structure AnalyzeEnv where
  digest : List Char → String
  cache : Cache
  promptFails : Bool
  llmResponse : Option String
  parseResult : String → Option LLMStructuredResponse
  parseErrorMsg : String

/-- Error string of the prompt-creation failure path
(src/agents/incident/analyzer.py line 270). -/
def prompt_error_message : String := "Error creating LLM prompt"

/-- Error string of the LLM-call failure path
(src/agents/incident/analyzer.py line 281). -/
def llm_failure_message : String := "Failed to get response from LLM service."

/-- Embeds `_check_cache` (src/agents/incident/analyzer.py lines 544-592):
look up the row keyed by the description hash. -/
def check_cache (env : AnalyzeEnv) (incident : IncidentReport) : Option AnalysisResult :=
  cache_lookup env.cache (get_incident_summary env.digest incident.description)

/-- Embeds `_add_to_cache` (src/agents/incident/analyzer.py lines 594-636):
results whose `analysis_source` is `"error"` are skipped, everything else
is written with `INSERT OR REPLACE` under the description-hash key. -/
def add_to_cache (env : AnalyzeEnv) (incident : IncidentReport)
    (result : AnalysisResult) : Cache :=
  if result.analysis_source == "error" then env.cache
  else cache_insert_replace env.cache (get_incident_summary env.digest incident.description) result

/-- Embeds `analyze_incident` (src/agents/incident/analyzer.py lines
233-324), returning the produced `AnalysisResult` together with the cache
table after the run.  Steps follow the source: cache check (hits are
returned with `analysis_source := "cache"`), prompt creation, LLM call,
parse, confidence scoring, insight extraction, and the guarded cache
write. -/
def analyze_incident (env : AnalyzeEnv) (incident : IncidentReport) :
    AnalysisResult × Cache :=
  match check_cache env incident with
  | some cached => ({ cached with analysis_source := "cache" }, env.cache)
  | none =>
    let result0 : AnalysisResult :=
      { incident_id := incident.incident_id, analysis_source := "pending", errors := [] }
    if env.promptFails then
      ({ result0 with
          errors := result0.errors ++ [prompt_error_message]
          analysis_source := "error" }, env.cache)
    else
      match env.llmResponse with
      | none =>
        ({ result0 with
            errors := result0.errors ++ [llm_failure_message]
            analysis_source := "error" }, env.cache)
      | some raw =>
        let result1 := { result0 with llm_raw_response := some raw }
        let parsed := env.parseResult raw
        let result2 :=
          match parsed with
          | some p => { result1 with parsed_response := some p, analysis_source := "llm" }
          | none =>
            { result1 with
                errors := result1.errors ++ [env.parseErrorMsg]
                analysis_source := "error" }
        let result3 := { result2 with confidence_score := some (calculate_confidence parsed raw) }
        let result4 :=
          match result3.parsed_response with
          | some p =>
            { result3 with actionable_insights := extract_insights p incident.incident_id }
          | none => result3
        let finalCache :=
          if result4.analysis_source != "error" then add_to_cache env incident result4
          else env.cache
        (result4, finalCache)

/-! ### Agent registry (`src/mcp/orchestration/registry.py`)

`AgentRegistry.agents` is a Python dict from agent id to `AgentInfo`; it is
modelled as an insertion-ordered association list.  Dict assignment
replaces the value if the key is present and appends otherwise; `del`
removes the key; `.values()` is the list of values in order.  UUID
generation in `register_agent` is abstracted: the fresh id is an input. -/

/-- Embeds `registry.AgentInfo` (src/mcp/orchestration/registry.py);
`last_heartbeat` (a Python float timestamp) is modelled as `Nat`. -/
structure AgentInfo where
  id : String
  name : String
  description : String
  endpoint : String
  capabilities : List String
  status : String := "active"
  last_heartbeat : Option Nat := none
deriving Repr, DecidableEq

/-- The `AgentRegistry.agents` dict. -/
abbrev Registry : Type := List (String × AgentInfo)

/-- Python dict assignment `self.agents[k] = v`. -/
def dict_set (reg : Registry) (key : String) (value : AgentInfo) : Registry :=
  if List.any reg (fun e => e.1 == key) then
    List.map (fun e => if e.1 == key then (key, value) else e) reg
  else reg ++ [(key, value)]

/-- Embeds `AgentRegistry.register_agent` (src/mcp/orchestration/registry.py
lines 21-34): builds the `AgentInfo` with the generated id and stores it
under that id; returns the new registry and the id. -/
def register_agent (reg : Registry) (new_id name description endpoint : String)
    (capabilities : List String) : Registry × String :=
  let agent : AgentInfo :=
    { id := new_id, name := name, description := description,
      endpoint := endpoint, capabilities := capabilities }
  (dict_set reg new_id agent, new_id)

/-- Embeds `AgentRegistry.get_agent` (src/mcp/orchestration/registry.py
lines 36-38). -/
def get_agent (reg : Registry) (agent_id : String) : Option AgentInfo :=
  (List.find? (fun e => e.1 == agent_id) reg).map (fun e => e.2)

/-- Embeds `AgentRegistry.get_agents_by_capability`
(src/mcp/orchestration/registry.py lines 44-49): linear scan over the dict
values. -/
def get_agents_by_capability (reg : Registry) (capability : String) : List AgentInfo :=
  List.filter (fun a => a.capabilities.contains capability)
    (List.map (fun e => e.2) reg)

/-- Embeds `AgentRegistry.update_agent_status`
(src/mcp/orchestration/registry.py lines 51-56): in-place mutation of the
stored record's `status`; returns the updated registry and the Boolean the
method returns. -/
def update_agent_status (reg : Registry) (agent_id status : String) : Registry × Bool :=
  if List.any reg (fun e => e.1 == agent_id) then
    (List.map (fun e => if e.1 == agent_id then (e.1, { e.2 with status := status }) else e) reg,
      true)
  else (reg, false)

/-- Embeds `AgentRegistry.deregister_agent`
(src/mcp/orchestration/registry.py lines 58-63): dict delete. -/
def deregister_agent (reg : Registry) (agent_id : String) : Registry × Bool :=
  if List.any reg (fun e => e.1 == agent_id) then
    (List.filter (fun e => e.1 != agent_id) reg, true)
  else (reg, false)

/-- Embeds the `agent_heartbeat` endpoint (src/mcp/api/endpoints.py lines
168-182): 404 (here `false`) when the agent is unknown; otherwise set
`last_heartbeat` to the current time and reactivate the agent if its status
is not `"active"`. -/
def agent_heartbeat (reg : Registry) (agent_id : String) (now : Nat) : Registry × Bool :=
  match get_agent reg agent_id with
  | none => (reg, false)
  | some agent =>
    let reg1 :=
      List.map (fun e =>
        if e.1 == agent_id then (e.1, { e.2 with last_heartbeat := some now }) else e) reg
    if agent.status != "active" then ((update_agent_status reg1 agent_id "active").1, true)
    else (reg1, true)

/-- One registry operation, for reachability statements. -/
inductive RegistryOp where
  | register (new_id name description endpoint : String) (capabilities : List String)
  | updateStatus (agent_id status : String)
  | deregister (agent_id : String)
  | heartbeat (agent_id : String) (now : Nat)
deriving Repr

/-- Applies one operation to the registry, discarding the returned value. -/
def apply_registry_op (reg : Registry) : RegistryOp → Registry
  | .register i n d e c => (register_agent reg i n d e c).1
  | .updateStatus a s => (update_agent_status reg a s).1
  | .deregister a => (deregister_agent reg a).1
  | .heartbeat a t => (agent_heartbeat reg a t).1

/-- Runs a sequence of operations from the empty registry (the state of a
fresh `AgentRegistry()`). -/
def run_registry_ops (ops : List RegistryOp) : Registry :=
  List.foldl apply_registry_op [] ops

/-- Registry consistency: every stored record's `id` field equals the dict
key it is stored under. -/
def registry_consistent (reg : Registry) : Prop :=
  ∀ e ∈ reg, (e.2 : AgentInfo).id = e.1

/-! ### Router (`src/mcp/orchestration/router.py`)

The HTTP POST of `send_message_to_agent` is abstracted by an
`HttpOutcome`: the call either yields a successful JSON body or one of the
four caught failure kinds (timeout, HTTP status error, network error,
unexpected exception).  Response bodies are abstract strings. -/

/-- Outcome of one agent HTTP call, matching the exception arms of
`send_message_to_agent` (src/mcp/orchestration/router.py lines 31-65). -/
inductive HttpOutcome where
  | success (data : String)
  | timeout (message : String)
  | statusError (code : Nat) (details : String)
  | networkError (message : String)
  | unexpected (message : String)
deriving Repr, DecidableEq

/-- The per-agent result dict built by `send_message_to_agent`: a `status`
of `"success"` with `data`, or `"error"` with `error` and `details`. -/
structure AgentCallResult where
  status : String
  data : Option String := none
  error : Option String := none
  details : Option String := none
deriving Repr, DecidableEq

/-- Embeds `send_message_to_agent` (src/mcp/orchestration/router.py lines
16-65): always returns the pair of the agent id and a structured result,
one arm per caught exception class. -/
def send_message_to_agent (outcome : HttpOutcome) (agent : AgentInfo) :
    String × AgentCallResult :=
  match outcome with
  | .success d =>
    (agent.id, { status := "success", data := some d })
  | .timeout msg =>
    (agent.id,
      { status := "error", error := some ("Timeout contacting agent " ++ agent.name),
        details := some msg })
  | .statusError code details =>
    (agent.id,
      { status := "error",
        error := some ("HTTP error from agent " ++ agent.name ++ ": " ++ toString code),
        details := some details })
  | .networkError msg =>
    (agent.id,
      { status := "error", error := some ("Network error contacting agent " ++ agent.name),
        details := some msg })
  | .unexpected msg =>
    (agent.id,
      { status := "error",
        error := some ("Unexpected error processing response from agent " ++ agent.name),
        details := some msg })

/-- Embeds `route_message_to_agents` (src/mcp/orchestration/router.py lines
68-128): filter the registry by capability and `"active"` status, return
`{}` when no agent qualifies, otherwise send to each qualifying agent and
collect `(agent_id, result)` pairs into the response map.  The gather
outcome of each task is supplied by the `outcome` environment (every task
returns a pair, so the exception arm of the collection loop is dead). -/
def route_message_to_agents (reg : Registry) (outcome : AgentInfo → String → HttpOutcome)
    (capability : String) (message_payload : String) : List (String × AgentCallResult) :=
  let matching_agents := get_agents_by_capability reg capability
  let active_agents := List.filter (fun a => a.status == "active") matching_agents
  if active_agents.isEmpty then []
  else List.map (fun a => send_message_to_agent (outcome a message_payload) a) active_agents

/-! ### Webhook auth and forwarding retries (`src/mcp/api/endpoints.py`) -/

/-- Default of the `GMAO_WEBHOOK_API_KEY` environment variable
(src/mcp/api/endpoints.py line 200). -/
def GMAO_WEBHOOK_API_KEY_DEFAULT : String := "your-secret-gmao-api-key"

/-- Result of the `verify_api_key` dependency: an HTTP rejection with a
status code and detail string, or acceptance of the token. -/
inductive WebhookAuth where
  | reject (status_code : Nat) (detail : String)
  | accept (token : String)
deriving Repr, DecidableEq

/-- Embeds `verify_api_key` (src/mcp/api/endpoints.py lines 218-234).  The
header is `none` when absent.  Python's `if not x_gmao_token` is truthiness:
it also fires on the empty string, so both a missing header and an empty
header value are rejected with 401; only a nonempty mismatching value
reaches the 403 branch. -/
def verify_api_key (configured_key : String) (x_gmao_token : Option String) : WebhookAuth :=
  match x_gmao_token with
  | none => .reject 401 "Missing API Key"
  | some t =>
    if t.isEmpty then .reject 401 "Missing API Key"
    else if t != configured_key then .reject 403 "Invalid API Key"
    else .accept t

/-- Whether a webhook request passes the `verify_api_key` dependency and
proceeds to payload mapping and background processing
(`receive_gmao_incident`, src/mcp/api/endpoints.py lines 533-573). -/
def gmao_webhook_authorizes (configured_key : String) (x_gmao_token : Option String) : Bool :=
  match verify_api_key configured_key x_gmao_token with
  | .accept _ => true
  | .reject _ _ => false

/-- `MAX_FORWARD_ATTEMPTS` (src/mcp/api/endpoints.py line 211). -/
def MAX_FORWARD_ATTEMPTS : Nat := 3

/-- `RETRY_DELAYS_SECONDS` (src/mcp/api/endpoints.py line 212). -/
def RETRY_DELAYS_SECONDS : List Nat := [5, 10]

/-- Outcome of one forwarding POST in `forward_incident_to_agent`,
matching its exception arms: success (including the parse-failure subcase,
which still breaks the loop), `httpx.RequestError`, `httpx.HTTPStatusError`
with a status code, or any other exception. -/
inductive ForwardOutcome where
  | success
  | requestError
  | statusError (code : Nat)
  | otherError
deriving Repr, DecidableEq

/-- The non-retryable test of the `HTTPStatusError` arm
(src/mcp/api/endpoints.py line 337): status below 500 and not 408/429. -/
def non_retryable_status (code : Nat) : Bool :=
  decide (code < 500) && !(code == 408) && !(code == 429)

/-- Whether the attempt outcome breaks the retry loop: a successful
response always does, an HTTP status error does when non-retryable, and
request errors / unexpected exceptions never do. -/
def stops_retry : ForwardOutcome → Bool
  | .success => true
  | .statusError code => non_retryable_status code
  | .requestError => false
  | .otherError => false

/-- Delay slept after a failed attempt (src/mcp/api/endpoints.py lines
356-357): `RETRY_DELAYS_SECONDS[min(attempt - 1, len - 1)]`. -/
def retry_delay (attempt : Nat) : Nat :=
  RETRY_DELAYS_SECONDS.getD (min (attempt - 1) (RETRY_DELAYS_SECONDS.length - 1)) 0

/-- The retry loop of `forward_incident_to_agent` (src/mcp/api/endpoints.py
lines 297-359) over the remaining attempt numbers: returns the number of
the last attempt performed and the list of delays slept between attempts.
On the last attempt no delay follows regardless of the outcome (the
`attempt < MAX_FORWARD_ATTEMPTS` guard). -/
def forward_loop (outcome : Nat → ForwardOutcome) : List Nat → Nat × List Nat
  | [] => (0, [])
  | [attempt] => (attempt, [])
  | attempt :: rest =>
    if stops_retry (outcome attempt) then (attempt, [])
    else
      let r := forward_loop outcome rest
      (r.1, retry_delay attempt :: r.2)

/-- The attempt/delay trace of one `forward_incident_to_agent` execution:
the loop runs over `range(1, MAX_FORWARD_ATTEMPTS + 1)`. -/
def forward_incident_attempts (outcome : Nat → ForwardOutcome) : Nat × List Nat :=
  forward_loop outcome (List.map (fun n => n + 1) (List.range MAX_FORWARD_ATTEMPTS))

/-! ### Concrete instances used by witnesses and counterexamples -/

/-- A previously stored analysis row (source `"llm"`), as `_add_to_cache`
would have written it. -/
def hit_prior : AnalysisResult :=
  { incident_id := "inc-0", analysis_source := "llm" }

/-- Environment whose cache already holds a row under the incident's key:
`analyze_incident` takes the cache-hit path. -/
def hit_env : AnalyzeEnv :=
  { digest := fun _ => "k", cache := [("k", hit_prior)], promptFails := false,
    llmResponse := none, parseResult := fun _ => none, parseErrorMsg := "parse error" }

/-- Incident used with `hit_env`. -/
def hit_incident : IncidentReport :=
  { incident_id := "inc-1", description := "disk full" }

/-- A concrete recommended action with every optional field populated. -/
def sample_action : RecommendedAction :=
  { action := "Restart application server App-01", type := "Remediate",
    target := some "App-01", priority := some 2, estimated_time_minutes := some 15,
    required_skills := ["Application Support"] }

/-- A concrete validated LLM response with one recommended action. -/
def sample_parsed : LLMStructuredResponse :=
  { recommended_actions := [sample_action] }

/-- Environment for a cache miss followed by a successful LLM call and a
successful parse. -/
def miss_env : AnalyzeEnv :=
  { digest := fun _ => "k", cache := [], promptFails := false,
    llmResponse := some "raw llm text", parseResult := fun _ => some sample_parsed,
    parseErrorMsg := "parse error" }

/-- Incident used with `miss_env`. -/
def miss_incident : IncidentReport :=
  { incident_id := "inc-2", description := "database slow" }

/-- A concrete registered agent. -/
def sample_agent : AgentInfo :=
  { id := "a1", name := "incident-agent", description := "analyzes incidents",
    endpoint := "http://agent:8003", capabilities := ["incident_analysis"] }

/-- A registry holding `sample_agent` under its id. -/
def sample_registry : Registry := [("a1", sample_agent)]

/-! ## Helper lemmas -/

theorem cause_details_score_bounds (d : LLMStructuredResponse) :
    0 ≤ cause_details_score d ∧ cause_details_score d ≤ 10 := by
  unfold cause_details_score
  constructor <;> (split_ifs <;> norm_num)

theorem action_details_score_bounds (d : LLMStructuredResponse) :
    0 ≤ action_details_score d ∧ action_details_score d ≤ 10 := by
  unfold action_details_score
  constructor <;> (split_ifs <;> norm_num)

theorem confidence_raw_score_bounds (d : LLMStructuredResponse) :
    0 ≤ confidence_raw_score d ∧ confidence_raw_score d ≤ 100 := by
  have hc := cause_details_score_bounds d
  have ha := action_details_score_bounds d
  unfold confidence_raw_score
  constructor <;> (split_ifs <;> linarith [hc.1, hc.2, ha.1, ha.2])

/-! ## Claim theorems -/

/-- C2: `_calculate_confidence` always returns a score in `[0, 1]`; it
returns `0.1` when the parsed response is `None`, and otherwise the sum of
the fixed per-field point additions (20 root causes, 20 actions, 10
category, 10 resolution time, 5 known issues, 5 documentation, up to 10
cause details, up to 10 action details, 10 confidence explanation) divided
by 100 and capped at `1.0`. -/
theorem calculate_confidence_spec (parsed : Option LLMStructuredResponse) (raw : String) :
    0 ≤ calculate_confidence parsed raw
    ∧ calculate_confidence parsed raw ≤ 1
    ∧ calculate_confidence none raw = 1 / 10
    ∧ ∀ d, calculate_confidence (some d) raw = min 1 (confidence_raw_score d / 100)
        ∧ 0 ≤ confidence_raw_score d ∧ confidence_raw_score d ≤ 100
        ∧ cause_details_score d ≤ 10 ∧ action_details_score d ≤ 10 := by
  refine ⟨?_, ?_, rfl, fun d => ?_⟩
  · cases parsed with
    | none =>
      simp only [calculate_confidence]
      norm_num
    | some d =>
      simp only [calculate_confidence]
      exact le_max_left 0 _
  · cases parsed with
    | none =>
      simp only [calculate_confidence]
      norm_num
    | some d =>
      simp only [calculate_confidence]
      exact max_le (by norm_num) (min_le_left 1 _)
  · have h0 : (0:Rat) ≤ confidence_raw_score d / 100 :=
      div_nonneg (confidence_raw_score_bounds d).1 (by norm_num)
    have hmin : (0:Rat) ≤ min 1 (confidence_raw_score d / 100) :=
      le_min (by norm_num) h0
    refine ⟨?_, (confidence_raw_score_bounds d).1, (confidence_raw_score_bounds d).2,
      (cause_details_score_bounds d).2, (action_details_score_bounds d).2⟩
    simp only [calculate_confidence]
    exact max_eq_right hmin

theorem space_isWhitespace : (' ' : Char).isWhitespace = true := by decide

theorem split_ws_collapse (l : List Char) :
    (∀ cur, split_ws_aux cur (collapse_ws false l) = split_ws_aux cur l)
    ∧ split_ws_aux [] (collapse_ws true l) = split_ws_aux [] l := by
  induction l with
  | nil => exact ⟨fun cur => rfl, rfl⟩
  | cons c cs ih =>
    by_cases hw : c.isWhitespace
    · refine ⟨fun cur => ?_, ?_⟩
      · cases cur with
        | nil => simp [collapse_ws, split_ws_aux, hw, space_isWhitespace, ih.2]
        | cons x xs => simp [collapse_ws, split_ws_aux, hw, space_isWhitespace, ih.2]
      · simp [collapse_ws, split_ws_aux, hw, ih.2]
    · refine ⟨fun cur => ?_, ?_⟩
      · have h := ih.1 (c :: cur)
        simpa [collapse_ws, split_ws_aux, hw] using h
      · have h := ih.1 [c]
        simpa [collapse_ws, split_ws_aux, hw] using h

/-- C6: the analyzer's cache key is invariant under case and whitespace
variation: two descriptions that agree after lowercasing and collapsing
whitespace runs into single spaces produce the same `_get_incident_summary`
digest (for any digest function), so `_check_cache` and `_add_to_cache`
treat them as the same incident. -/
theorem incident_summary_normalization_invariant
    (digest : List Char → String) (d1 d2 : String)
    (h : spec_normalize d1.data = spec_normalize d2.data) :
    get_incident_summary digest d1 = get_incident_summary digest d2 := by
  unfold get_incident_summary py_normalize py_split
  unfold spec_normalize at h
  have h1 := (split_ws_collapse (py_lower d1.data)).1 []
  have h2 := (split_ws_collapse (py_lower d2.data)).1 []
  rw [← h1, ← h2, h]

/-- Witness for C6 at concrete inputs: `"Disk  FULL"` and `"disk full"`
normalize identically, so their cache keys agree. -/
theorem incident_summary_normalization_invariant_witness :
    spec_normalize ("Disk  FULL").data = spec_normalize ("disk full").data
    ∧ get_incident_summary String.mk "Disk  FULL" = get_incident_summary String.mk "disk full" :=
  ⟨by decide,
   incident_summary_normalization_invariant String.mk "Disk  FULL" "disk full" (by decide)⟩

theorem find_map_replace (cache : Cache) (key : String) (r : AnalysisResult)
    (h : List.any cache (fun e => e.1 == key) = true) :
    List.find? (fun e => e.1 == key)
      (List.map (fun e => if e.1 == key then (key, r) else e) cache) = some (key, r) := by
  induction cache with
  | nil => simp at h
  | cons e es ih =>
    by_cases he : (e.1 == key) = true
    · rw [List.map_cons, if_pos he, List.find?_cons_of_pos]
      simp
    · rw [List.map_cons, if_neg he, List.find?_cons_of_neg]
      · exact ih (by simpa [he] using h)
      · exact he

theorem cache_lookup_insert_replace (cache : Cache) (key : String) (r : AnalysisResult) :
    cache_lookup (cache_insert_replace cache key r) key = some r := by
  by_cases h : List.any cache (fun e => e.1 == key) = true
  · unfold cache_insert_replace cache_lookup
    rw [if_pos h, find_map_replace cache key r h]
    rfl
  · unfold cache_insert_replace cache_lookup
    rw [if_neg h]
    have hnone : List.find? (fun e => e.1 == key) cache = none := by
      rw [List.find?_eq_none]
      intro x hx hpx
      exact h (List.any_eq_true.mpr ⟨x, hx, hpx⟩)
    rw [List.find?_append, hnone]
    simp

theorem extract_insights_eq_map (p : LLMStructuredResponse) (s : String) :
    extract_insights p s = List.map (fun action =>
      ({ description := action.action
         type := action.type
         target := action.target
         priority := action.priority
         estimated_time_minutes := action.estimated_time_minutes
         required_skills := action.required_skills } : ActionableInsight))
      p.recommended_actions := by
  unfold extract_insights
  split
  · next h =>
    rw [List.isEmpty_iff.mp h]
    rfl
  · rfl

theorem extract_insights_fields (p : LLMStructuredResponse) (s : String) :
    (extract_insights p s).length = p.recommended_actions.length
    ∧ ∀ i (hi : i < (extract_insights p s).length)
        (ha : i < p.recommended_actions.length),
        ((extract_insights p s).get ⟨i, hi⟩).description
          = (p.recommended_actions.get ⟨i, ha⟩).action
        ∧ ((extract_insights p s).get ⟨i, hi⟩).type
          = (p.recommended_actions.get ⟨i, ha⟩).type
        ∧ ((extract_insights p s).get ⟨i, hi⟩).target
          = (p.recommended_actions.get ⟨i, ha⟩).target
        ∧ ((extract_insights p s).get ⟨i, hi⟩).priority
          = (p.recommended_actions.get ⟨i, ha⟩).priority
        ∧ ((extract_insights p s).get ⟨i, hi⟩).estimated_time_minutes
          = (p.recommended_actions.get ⟨i, ha⟩).estimated_time_minutes
        ∧ ((extract_insights p s).get ⟨i, hi⟩).required_skills
          = (p.recommended_actions.get ⟨i, ha⟩).required_skills := by
  rw [extract_insights_eq_map]
  refine ⟨by simp, ?_⟩
  intro i hi ha
  simp [List.get_eq_getElem, List.getElem_map]

/-- C7: every `AnalysisResult` returned by `analyze_incident` carries an
`analysis_source` of `"llm"`, `"cache"` or `"error"`: the initial
`"pending"` tag is overwritten on every path before the result is
returned. -/
theorem analyze_incident_source_tag (env : AnalyzeEnv) (incident : IncidentReport) :
    (analyze_incident env incident).1.analysis_source = "llm"
    ∨ (analyze_incident env incident).1.analysis_source = "cache"
    ∨ (analyze_incident env incident).1.analysis_source = "error" := by
  unfold analyze_incident
  cases hc : check_cache env incident with
  | some cached => simp
  | none =>
    by_cases hp : env.promptFails
    · simp [hp]
    · cases hl : env.llmResponse with
      | none => simp [hp, hl]
      | some raw =>
        cases hpr : env.parseResult raw with
        | some p => simp [hp, hl, hpr]
        | none => simp [hp, hl, hpr]

/-- C1 counterexample: on a cache hit the returned result has
`analysis_source = "cache"` (not `"error"`), yet nothing is stored — the
table keeps the previously written row, which differs from the returned
result, so "stores if and only if `analysis_source` is not error" fails. -/
theorem analyze_cache_store_counterexample :
    (analyze_incident hit_env hit_incident).1.analysis_source ≠ "error"
    ∧ (analyze_incident hit_env hit_incident).2 = hit_env.cache
    ∧ (analyze_incident hit_env hit_incident).2
        ≠ cache_insert_replace hit_env.cache
            (get_incident_summary hit_env.digest hit_incident.description)
            (analyze_incident hit_env hit_incident).1 :=
  ⟨by decide, by decide, by decide⟩

/-- C1 amended: `analyze_incident` writes to the SQLite cache exactly when
the returned `analysis_source` is `"llm"`: a fresh successful analysis is
stored via INSERT OR REPLACE under the description-hash key (a later write
with the same key replaces the row — last write wins, as the lookup
conjunct states), while every error result and every cache hit leaves the
table unchanged. -/
theorem analyze_cache_store_amended (env : AnalyzeEnv) (incident : IncidentReport) :
    ((analyze_incident env incident).1.analysis_source = "llm" →
      (analyze_incident env incident).2
        = cache_insert_replace env.cache
            (get_incident_summary env.digest incident.description)
            (analyze_incident env incident).1)
    ∧ ((analyze_incident env incident).1.analysis_source ≠ "llm" →
      (analyze_incident env incident).2 = env.cache)
    ∧ ∀ (c : Cache) (k : String) (r : AnalysisResult),
        cache_lookup (cache_insert_replace c k r) k = some r := by
  refine ⟨?_, ?_, fun c k r => cache_lookup_insert_replace c k r⟩ <;>
    · unfold analyze_incident
      cases hc : check_cache env incident with
      | some cached => simp [add_to_cache]
      | none =>
        by_cases hp : env.promptFails
        · simp [hp]
        · cases hl : env.llmResponse with
          | none => simp [hp, hl]
          | some raw =>
            cases hpr : env.parseResult raw with
            | some p => simp [hp, hl, hpr, add_to_cache]
            | none => simp [hp, hl, hpr]

/-- Witness for the amended C1: a cache miss with a successful parse ends
with `analysis_source = "llm"` and the cache updated under the key. -/
theorem analyze_cache_store_amended_witness :
    (analyze_incident miss_env miss_incident).1.analysis_source = "llm"
    ∧ (analyze_incident miss_env miss_incident).2
        = cache_insert_replace miss_env.cache
            (get_incident_summary miss_env.digest miss_incident.description)
            (analyze_incident miss_env miss_incident).1 :=
  ⟨by decide, (analyze_cache_store_amended miss_env miss_incident).1 (by decide)⟩

/-- C10: whenever `analyze_incident` returns `analysis_source = "llm"`, the
parsed response is present, the error list is empty, and the actionable
insights are exactly one per entry of `parsed_response.recommended_actions`
in order, preserving the action's description, type, target, priority,
estimated time and required skills. -/
theorem analyze_llm_result_shape (env : AnalyzeEnv) (incident : IncidentReport)
    (hsrc : (analyze_incident env incident).1.analysis_source = "llm") :
    (analyze_incident env incident).1.parsed_response.isSome = true
    ∧ (analyze_incident env incident).1.errors = []
    ∧ ∀ p, (analyze_incident env incident).1.parsed_response = some p →
        (analyze_incident env incident).1.actionable_insights.length
          = p.recommended_actions.length
        ∧ ∀ i (hi : i < (analyze_incident env incident).1.actionable_insights.length)
            (ha : i < p.recommended_actions.length),
            ((analyze_incident env incident).1.actionable_insights.get ⟨i, hi⟩).description
              = (p.recommended_actions.get ⟨i, ha⟩).action
            ∧ ((analyze_incident env incident).1.actionable_insights.get ⟨i, hi⟩).type
              = (p.recommended_actions.get ⟨i, ha⟩).type
            ∧ ((analyze_incident env incident).1.actionable_insights.get ⟨i, hi⟩).target
              = (p.recommended_actions.get ⟨i, ha⟩).target
            ∧ ((analyze_incident env incident).1.actionable_insights.get ⟨i, hi⟩).priority
              = (p.recommended_actions.get ⟨i, ha⟩).priority
            ∧ ((analyze_incident env incident).1.actionable_insights.get
                ⟨i, hi⟩).estimated_time_minutes
              = (p.recommended_actions.get ⟨i, ha⟩).estimated_time_minutes
            ∧ ((analyze_incident env incident).1.actionable_insights.get
                ⟨i, hi⟩).required_skills
              = (p.recommended_actions.get ⟨i, ha⟩).required_skills := by
  cases hc : check_cache env incident with
  | some cached =>
    simp [analyze_incident, hc] at hsrc
  | none =>
    by_cases hp : env.promptFails
    · simp [analyze_incident, hc, hp] at hsrc
    · have hp' : env.promptFails = false := by simpa using hp
      cases hl : env.llmResponse with
      | none => simp [analyze_incident, hc, hp', hl] at hsrc
      | some raw =>
        cases hpr : env.parseResult raw with
        | none => simp [analyze_incident, hc, hp', hl, hpr] at hsrc
        | some q =>
          have heq : analyze_incident env incident
              = ({ incident_id := incident.incident_id, llm_raw_response := some raw,
                    parsed_response := some q,
                    confidence_score := some (calculate_confidence (some q) raw),
                    actionable_insights := extract_insights q incident.incident_id,
                    errors := [], analysis_source := "llm" },
                  cache_insert_replace env.cache
                    (get_incident_summary env.digest incident.description)
                    { incident_id := incident.incident_id, llm_raw_response := some raw,
                      parsed_response := some q,
                      confidence_score := some (calculate_confidence (some q) raw),
                      actionable_insights := extract_insights q incident.incident_id,
                      errors := [], analysis_source := "llm" }) := by
            unfold analyze_incident
            simp [hc, hp', hl, hpr, add_to_cache]
          rw [heq]
          refine ⟨rfl, rfl, ?_⟩
          intro p hpeq
          have hqp : q = p := by
            simpa using hpeq
          subst hqp
          exact extract_insights_fields q incident.incident_id

/-- Witness for C10: the concrete successful run yields a present parsed
response, no errors, and one insight for its one recommended action. -/
theorem analyze_llm_result_shape_witness :
    (analyze_incident miss_env miss_incident).1.parsed_response.isSome = true
    ∧ (analyze_incident miss_env miss_incident).1.errors = [] :=
  ⟨(analyze_llm_result_shape miss_env miss_incident (by decide)).1,
   (analyze_llm_result_shape miss_env miss_incident (by decide)).2.1⟩

/-- C3: `route_message_to_agents` sends exactly to the agents that have
the requested capability and status `"active"`: the response map has
exactly one entry per such agent, keyed by its id (in registry order), and
is empty when no such agent exists. -/
theorem route_targets_active_capable (reg : Registry)
    (outcome : AgentInfo → String → HttpOutcome) (capability payload : String) :
    (route_message_to_agents reg outcome capability payload).map Prod.fst
      = (List.filter (fun a => a.status == "active")
          (get_agents_by_capability reg capability)).map AgentInfo.id
    ∧ ((List.filter (fun a => a.status == "active")
          (get_agents_by_capability reg capability)).isEmpty = true
        → route_message_to_agents reg outcome capability payload = []) := by
  unfold route_message_to_agents
  by_cases h : (List.filter (fun a => a.status == "active")
      (get_agents_by_capability reg capability)).isEmpty = true
  · rw [if_pos h]
    refine ⟨?_, fun _ => rfl⟩
    rw [List.isEmpty_iff.mp h]
    rfl
  · rw [if_neg h]
    refine ⟨?_, fun hh => absurd hh h⟩
    rw [List.map_map]
    apply List.map_congr_left
    intro a _
    cases houtcome : outcome a payload <;>
      simp [send_message_to_agent, houtcome, Function.comp]

/-- Witness for C3: an empty registry yields the empty response map. -/
theorem route_targets_active_capable_witness :
    route_message_to_agents ([] : Registry) (fun _ _ => HttpOutcome.success "ok")
      "incident_analysis" "payload" = [] :=
  (route_targets_active_capable [] (fun _ _ => HttpOutcome.success "ok")
    "incident_analysis" "payload").2 (by decide)

/-- C4: `send_message_to_agent` is total over HTTP outcomes: it always
returns the agent's id paired with a structured result whose status is
`"success"` carrying data, or `"error"` carrying an error description
(one arm per failure kind), and in the aggregated map of
`route_message_to_agents` the entry at each agent's position is determined
by that agent's own outcome alone, so one agent's failure never removes or
alters another agent's entry. -/
theorem send_message_total (outcome : AgentInfo → String → HttpOutcome)
    (agent : AgentInfo) (payload : String) :
    (send_message_to_agent (outcome agent payload) agent).1 = agent.id
    ∧ (((send_message_to_agent (outcome agent payload) agent).2.status = "success"
          ∧ ((send_message_to_agent (outcome agent payload) agent).2.data).isSome = true)
        ∨ ((send_message_to_agent (outcome agent payload) agent).2.status = "error"
          ∧ ((send_message_to_agent (outcome agent payload) agent).2.error).isSome = true))
    ∧ ∀ (reg : Registry) (capability : String) (i : Nat) (a : AgentInfo),
        (List.filter (fun x => x.status == "active")
          (get_agents_by_capability reg capability))[i]? = some a
        → (route_message_to_agents reg outcome capability payload)[i]?
            = some (send_message_to_agent (outcome a payload) a) := by
  refine ⟨?_, ?_, ?_⟩
  · cases outcome agent payload <;> rfl
  · cases outcome agent payload <;> simp [send_message_to_agent]
  · intro reg capability i a ha
    unfold route_message_to_agents
    have hne : (List.filter (fun x => x.status == "active")
        (get_agents_by_capability reg capability)).isEmpty = false := by
      cases hfil : List.filter (fun x => x.status == "active")
          (get_agents_by_capability reg capability) with
      | nil => rw [hfil] at ha; simp at ha
      | cons b bs => rfl
    rw [if_neg (by simp [hne])]
    rw [List.getElem?_map, ha]
    rfl

/-- Witness for C4: with a one-agent registry, the response map entry at
position 0 is the structured result of that agent's own call. -/
theorem send_message_total_witness :
    (route_message_to_agents sample_registry (fun _ _ => HttpOutcome.timeout "t")
      "incident_analysis" "p")[0]?
      = some (send_message_to_agent
          ((fun (_ : AgentInfo) (_ : String) => HttpOutcome.timeout "t") sample_agent "p")
          sample_agent) :=
  (send_message_total (fun _ _ => HttpOutcome.timeout "t") sample_agent "p").2.2
    sample_registry "incident_analysis" 0 sample_agent (by decide)

/-- C5: `forward_incident_to_agent` makes at most 3 POST attempts; the
delay slept after the i-th failed attempt comes from the fixed table
`[5, 10]` (5 after the first failure, 10 after the second), so the slept
delays are always the matching front of the table; the loop stops at the
first attempt whose outcome is a successful response or an HTTP status
error with code below 500 other than 408/429, and otherwise runs all 3
attempts. -/
theorem forward_retry_policy (outcome : Nat → ForwardOutcome) :
    (forward_incident_attempts outcome).1 ≤ MAX_FORWARD_ATTEMPTS
    ∧ (forward_incident_attempts outcome).2
        = RETRY_DELAYS_SECONDS.take ((forward_incident_attempts outcome).1 - 1)
    ∧ (forward_incident_attempts outcome).1
        = (if stops_retry (outcome 1) then 1 else if stops_retry (outcome 2) then 2 else 3)
    ∧ stops_retry ForwardOutcome.success = true
    ∧ (∀ code, stops_retry (ForwardOutcome.statusError code) = true
        ↔ (code < 500 ∧ code ≠ 408 ∧ code ≠ 429))
    ∧ stops_retry ForwardOutcome.requestError = false
    ∧ stops_retry ForwardOutcome.otherError = false := by
  have hlist : List.map (fun n => n + 1) (List.range MAX_FORWARD_ATTEMPTS) = [1, 2, 3] := by
    decide
  have hiff : ∀ code, stops_retry (ForwardOutcome.statusError code) = true
      ↔ (code < 500 ∧ code ≠ 408 ∧ code ≠ 429) := by
    intro code
    simp [stops_retry, non_retryable_status, and_assoc]
  unfold forward_incident_attempts
  rw [hlist]
  by_cases h1 : stops_retry (outcome 1) = true
  · simp [forward_loop, h1, MAX_FORWARD_ATTEMPTS, RETRY_DELAYS_SECONDS, hiff]
    exact ⟨rfl, rfl, rfl⟩
  · by_cases h2 : stops_retry (outcome 2) = true
    · simp [forward_loop, h1, h2, retry_delay, MAX_FORWARD_ATTEMPTS,
        RETRY_DELAYS_SECONDS, hiff]
      exact ⟨rfl, rfl, rfl⟩
    · simp [forward_loop, h1, h2, retry_delay, MAX_FORWARD_ATTEMPTS,
        RETRY_DELAYS_SECONDS, hiff]
      exact ⟨rfl, rfl, rfl⟩

/-- Witness for C5: when every attempt fails with a request error, all 3
attempts run and the delays slept are exactly `[5, 10]`. -/
theorem forward_retry_policy_witness :
    (forward_incident_attempts (fun _ => ForwardOutcome.requestError)).1 = 3
    ∧ (forward_incident_attempts (fun _ => ForwardOutcome.requestError)).2 = [5, 10] := by
  have h := forward_retry_policy (fun _ => ForwardOutcome.requestError)
  refine ⟨?_, ?_⟩
  · rw [h.2.2.1]
    decide
  · rw [h.2.1, h.2.2.1]
    decide

/-- C8 counterexample: an empty `X-GMAO-Token` header value is different
from the configured key, yet `verify_api_key` rejects it with 401 (Python's
`if not x_gmao_token` also fires on `""`), not with 403 as the claim
states. -/
theorem verify_api_key_counterexample :
    ("" : String) ≠ GMAO_WEBHOOK_API_KEY_DEFAULT
    ∧ verify_api_key GMAO_WEBHOOK_API_KEY_DEFAULT (some "")
        = WebhookAuth.reject 401 "Missing API Key"
    ∧ verify_api_key GMAO_WEBHOOK_API_KEY_DEFAULT (some "")
        ≠ WebhookAuth.reject 403 "Invalid API Key" :=
  ⟨by decide, by decide, by decide⟩

/-- C8 amended: a missing or empty `X-GMAO-Token` header is rejected with
401, a nonempty header value different from the configured key is rejected
with 403, and exactly the requests whose nonempty header equals the key
pass the dependency and proceed to payload mapping and background
processing. -/
theorem verify_api_key_amended (key : String) (header : Option String) :
    ((header = none ∨ header = some "") →
      verify_api_key key header = WebhookAuth.reject 401 "Missing API Key")
    ∧ (∀ t, header = some t → t ≠ "" → t ≠ key →
      verify_api_key key header = WebhookAuth.reject 403 "Invalid API Key")
    ∧ (∀ t, header = some t → t ≠ "" → t = key →
      verify_api_key key header = WebhookAuth.accept t)
    ∧ (gmao_webhook_authorizes key header = true ↔ (header = some key ∧ key ≠ "")) := by
  cases header with
  | none =>
    refine ⟨fun _ => rfl, fun t ht => absurd ht (by simp), fun t ht => absurd ht (by simp), ?_⟩
    simp [gmao_webhook_authorizes, verify_api_key]
  | some t =>
    by_cases hte : t = ""
    · subst hte
      have hv : verify_api_key key (some "") = WebhookAuth.reject 401 "Missing API Key" := rfl
      refine ⟨fun _ => hv, ?_, ?_, ?_⟩
      · intro u hu hne _
        have hu0 : u = "" := by simpa using hu.symm
        exact absurd hu0 hne
      · intro u hu hne _
        have hu0 : u = "" := by simpa using hu.symm
        exact absurd hu0 hne
      · simp [gmao_webhook_authorizes, hv]
        exact fun h1 => h1.symm
    · have hie : t.isEmpty = false := by
        rw [Bool.eq_false_iff]
        intro hemp
        exact hte ((String.isEmpty_iff t).mp hemp)
      by_cases htk : t = key
      · subst htk
        have hv : verify_api_key t (some t) = WebhookAuth.accept t := by
          simp [verify_api_key, hie]
        refine ⟨?_, ?_, ?_, ?_⟩
        · rintro (h | h)
          · exact absurd h (by simp)
          · exact absurd (by simpa using h) hte
        · intro u hu _ hnk
          have hut : u = t := by simpa using hu.symm
          exact absurd hut hnk
        · intro u hu _ _
          have hut : u = t := by simpa using hu.symm
          rw [hut]
          exact hv
        · simp [gmao_webhook_authorizes, hv, hte]
      · have hv : verify_api_key key (some t) = WebhookAuth.reject 403 "Invalid API Key" := by
          simp [verify_api_key, hie, htk]
        refine ⟨?_, ?_, ?_, ?_⟩
        · rintro (h | h)
          · exact absurd h (by simp)
          · exact absurd (by simpa using h) hte
        · intro u hu _ _
          exact hv
        · intro u hu _ huk
          have hut : u = t := by simpa using hu.symm
          exact absurd (hut.symm.trans huk) htk
        · simp [gmao_webhook_authorizes, hv]
          exact fun h1 => absurd h1 htk

/-- Witness for the amended C8: a nonempty wrong token is rejected 403, and
the configured token is accepted. -/
theorem verify_api_key_amended_witness :
    verify_api_key "secret-key" (some "wrong-token")
      = WebhookAuth.reject 403 "Invalid API Key"
    ∧ verify_api_key "secret-key" (some "secret-key") = WebhookAuth.accept "secret-key" :=
  ⟨(verify_api_key_amended "secret-key" (some "wrong-token")).2.1 "wrong-token"
      rfl (by decide) (by decide),
   (verify_api_key_amended "secret-key" (some "secret-key")).2.2.1 "secret-key"
      rfl (by decide) rfl⟩

theorem registry_consistent_map (reg : Registry)
    (f : String × AgentInfo → String × AgentInfo)
    (hf : ∀ e, (e.2 : AgentInfo).id = e.1 → ((f e).2).id = (f e).1)
    (h : registry_consistent reg) : registry_consistent (List.map f reg) := by
  intro x hx
  rcases List.mem_map.mp hx with ⟨e, he, rfl⟩
  exact hf e (h e he)

theorem registry_consistent_update (reg : Registry) (agent_id status : String)
    (h : registry_consistent reg) :
    registry_consistent (update_agent_status reg agent_id status).1 := by
  unfold update_agent_status
  by_cases hany : List.any reg (fun e => e.1 == agent_id) = true
  · rw [if_pos hany]
    refine registry_consistent_map reg _ ?_ h
    intro e hid
    by_cases he : (e.1 == agent_id) = true
    · simp [he, hid]
    · simp [he, hid]
  · rw [if_neg hany]
    exact h

theorem registry_consistent_apply (reg : Registry) (op : RegistryOp)
    (h : registry_consistent reg) : registry_consistent (apply_registry_op reg op) := by
  cases op with
  | register i n d e c =>
    simp only [apply_registry_op, register_agent, dict_set]
    by_cases hany : List.any reg (fun e => e.1 == i) = true
    · rw [if_pos hany]
      refine registry_consistent_map reg _ ?_ h
      intro x hid
      by_cases hx : (x.1 == i) = true
      · simp [hx]
      · simp [hx, hid]
    · rw [if_neg hany]
      intro x hx
      rcases List.mem_append.mp hx with hmem | hmem
      · exact h x hmem
      · rcases List.mem_singleton.mp hmem with rfl
        rfl
  | updateStatus a s =>
    exact registry_consistent_update reg a s h
  | deregister a =>
    simp only [apply_registry_op, deregister_agent]
    by_cases hany : List.any reg (fun e => e.1 == a) = true
    · rw [if_pos hany]
      intro x hx
      exact h x (List.mem_of_mem_filter hx)
    · rw [if_neg hany]
      exact h
  | heartbeat a t =>
    simp only [apply_registry_op, agent_heartbeat]
    cases hg : get_agent reg a with
    | none => exact h
    | some agent =>
      have h1 : registry_consistent (List.map (fun e =>
          if e.1 == a then (e.1, { e.2 with last_heartbeat := some t }) else e) reg) := by
        refine registry_consistent_map reg _ ?_ h
        intro e hid
        by_cases he : (e.1 == a) = true
        · simp [he, hid]
        · simp [he, hid]
      by_cases hs : (agent.status != "active") = true
      · simp only [hs, if_true]
        exact registry_consistent_update _ a "active" h1
      · simp only [hs, if_false]
        exact h1

theorem registry_consistent_foldl (ops : List RegistryOp) (reg : Registry)
    (h : registry_consistent reg) :
    registry_consistent (List.foldl apply_registry_op reg ops) := by
  induction ops generalizing reg with
  | nil => exact h
  | cons op rest ih => exact ih _ (registry_consistent_apply reg op h)

/-- C9: registry consistency — in every state reachable from the fresh
registry by register / update-status / deregister / heartbeat operations,
each stored `AgentInfo.id` equals its dict key; and `update_agent_status` /
`deregister_agent` return `True` exactly when the agent id is a key of the
dict, leaving the registry unchanged when they return `False`. -/
theorem registry_consistency :
    (∀ ops : List RegistryOp, registry_consistent (run_registry_ops ops))
    ∧ (∀ (reg : Registry) (agent_id status : String),
        ((update_agent_status reg agent_id status).2 = true
          ↔ List.any reg (fun e => e.1 == agent_id) = true)
        ∧ ((update_agent_status reg agent_id status).2 = false
            → (update_agent_status reg agent_id status).1 = reg))
    ∧ (∀ (reg : Registry) (agent_id : String),
        ((deregister_agent reg agent_id).2 = true
          ↔ List.any reg (fun e => e.1 == agent_id) = true)
        ∧ ((deregister_agent reg agent_id).2 = false
            → (deregister_agent reg agent_id).1 = reg)) := by
  refine ⟨?_, ?_, ?_⟩
  · intro ops
    exact registry_consistent_foldl ops [] (by intro x hx; simp at hx)
  · intro reg agent_id status
    unfold update_agent_status
    by_cases hany : List.any reg (fun e => e.1 == agent_id) = true
    · rw [if_pos hany]
      exact ⟨by simp [hany], by simp⟩
    · rw [if_neg hany]
      exact ⟨by simp [hany], fun _ => rfl⟩
  · intro reg agent_id
    unfold deregister_agent
    by_cases hany : List.any reg (fun e => e.1 == agent_id) = true
    · rw [if_pos hany]
      exact ⟨by simp [hany], by simp⟩
    · rw [if_neg hany]
      exact ⟨by simp [hany], fun _ => rfl⟩

/-- Witness for C9: one registration yields a consistent registry, and an
update on an absent id reports `False` and leaves the registry unchanged. -/
theorem registry_consistency_witness :
    registry_consistent
      (run_registry_ops [RegistryOp.register "a1" "n" "d" "http://a" ["cap"]])
    ∧ (update_agent_status [] "missing" "inactive").1 = []
    ∧ (update_agent_status [] "missing" "inactive").2 = false :=
  ⟨registry_consistency.1 [RegistryOp.register "a1" "n" "d" "http://a" ["cap"]],
   (registry_consistency.2.1 [] "missing" "inactive").2 rfl, rfl⟩
